import Mathlib

/-!
Verification of the canvas annotation surface of the P&ID digitization
tool.  The definitions below are shallow embeddings, over `ℚ`, of the
coordinate-transform and gesture-handling code of the `CanvasViewer`
component (`src/frontend/src/components/AnnotationPanel.jsx`, second
concatenated file) and of the domain-mutation handlers of
`src/frontend/src/pages/Annotator.jsx`.
-/

namespace Yolo

/-- The view transform of the canvas: scale factor (view units per page
pixel) and the view coordinates of page origin.  In the source these are
read off the background image object: `bgImage.scaleX`, `bgImage.left`,
`bgImage.top`. -/
structure Transform where
  scale : ℚ
  offsetX : ℚ
  offsetY : ℚ
deriving DecidableEq

/-- Page-to-view conversion as used by the render path
(`AnnotationPanel.jsx` 395-399): `left = offsetX + ann.x * scale`,
`top = offsetY + ann.y * scale`. -/
def toView (t : Transform) (p : ℚ × ℚ) : ℚ × ℚ :=
  (t.offsetX + p.1 * t.scale, t.offsetY + p.2 * t.scale)

/-- View-to-page conversion as used by the draw-gesture completion path
(`AnnotationPanel.jsx` 562-563): `x = (tempRect.left - offsetX) / scale`,
`y = (tempRect.top - offsetY) / scale`. -/
def toPage (t : Transform) (v : ℚ × ℚ) : ℚ × ℚ :=
  ((v.1 - t.offsetX) / t.scale, (v.2 - t.offsetY) / t.scale)

/-- Fit-to-viewport scale computed when the page image loads
(`AnnotationPanel.jsx` 339-341):
`scale = Math.min(containerWidth / imgWidth, containerHeight / imgHeight, 1) * 0.9`. -/
def fitScale (cw ch iw ih : ℚ) : ℚ :=
  min (min (cw / iw) (ch / ih)) 1 * (9 / 10)

/-- Horizontal offset centering the fitted image
(`AnnotationPanel.jsx` 344): `left = (container.clientWidth - img.width * scale) / 2`. -/
def fitLeft (cw iw s : ℚ) : ℚ := (cw - iw * s) / 2

/-- Vertical offset centering the fitted image
(`AnnotationPanel.jsx` 345): `top = (container.clientHeight - img.height * scale) / 2`. -/
def fitTop (ch ih s : ℚ) : ℚ := (ch - ih * s) / 2

/-- The in-progress drawn rectangle (the `temp-rect` fabric object), in
view coordinates. -/
structure ViewRect where
  left : ℚ
  top : ℚ
  width : ℚ
  height : ℚ
deriving DecidableEq

/-- The `mouse:move` update of the in-progress rectangle
(`AnnotationPanel.jsx` 530-539): `width = pointer.x - drawStart.x`,
`height = pointer.y - drawStart.y`, then
`tempRect.set({width: Math.abs(width), height: Math.abs(height),
left: width > 0 ? drawStart.x : pointer.x,
top: height > 0 ? drawStart.y : pointer.y})`. -/
def handleMouseMove (drawStart pointer : ℚ × ℚ) : ViewRect :=
  let width := pointer.1 - drawStart.1
  let height := pointer.2 - drawStart.2
  { left := if 0 < width then drawStart.1 else pointer.1
    top := if 0 < height then drawStart.2 else pointer.2
    width := |width|
    height := |height| }

/-- A created bounding box, in page-pixel coordinates, as passed to
`onAnnotationCreate({x, y, width, height})`. -/
structure PageBox where
  x : ℚ
  y : ℚ
  width : ℚ
  height : ℚ
deriving DecidableEq

/-- The `mouse:up` completion of a draw gesture
(`AnnotationPanel.jsx` 557-576): converts the temp rectangle to image
coordinates, `x = (tempRect.left - offsetX) / scale`,
`width = tempRect.width / scale`, and calls `onAnnotationCreate`
only `if (width > 10 && height > 10)`; otherwise no call is made. -/
def handleMouseUp (t : Transform) (tempRect : ViewRect) : Option PageBox :=
  let x := (tempRect.left - t.offsetX) / t.scale
  let y := (tempRect.top - t.offsetY) / t.scale
  let width := tempRect.width / t.scale
  let height := tempRect.height / t.scale
  if 10 < width ∧ 10 < height then some ⟨x, y, width, height⟩ else none

/-- The zoom entry points exposed to the user: the `mouse:wheel` handler
(`AnnotationPanel.jsx` 304-315, the flag records whether `deltaY > 0`),
the zoom-in and zoom-out buttons, and the reset button
(`AnnotationPanel.jsx` 593-615). -/
inductive ZoomOp where
  | wheel (deltaYPos : Bool)
  | zoomIn
  | zoomOut
  | reset
deriving DecidableEq

/-- One step of the zoom state.  Wheel:
`newZoom = zoom * (deltaY > 0 ? 0.9 : 1.1)` then
`Math.min(Math.max(newZoom, 0.1), 5)`.  Zoom-in button:
`Math.min(zoom * 1.2, 5)`.  Zoom-out button: `Math.max(zoom / 1.2, 0.1)`.
Reset button: `setZoom(1)`. -/
def applyZoom (z : ℚ) : ZoomOp → ℚ
  | .wheel deltaYPos => min (max (z * (if deltaYPos then 9 / 10 else 11 / 10)) (1 / 10)) 5
  | .zoomIn => min (z * (12 / 10)) 5
  | .zoomOut => max (z / (12 / 10)) (1 / 10)
  | .reset => 1

/-- Modelled from the spec: `fabric.Canvas.zoomToPoint`, the third-party
canvas call used by the mouse-wheel handler (`AnnotationPanel.jsx` 310)
and, with the canvas origin as pivot, by the zoom buttons' `setZoom`, is
not part of this repository's sources.  Per the spec, `zoom(factor,
pivot)` "adjusts `(ox,oy)` so that the pivot point (typically the
pointer location) remains fixed in view space": the new offset places
the page point currently under the pivot back at the pivot under the new
scale. -/
def zoomToPoint (t : Transform) (pivot : ℚ × ℚ) (newScale : ℚ) : Transform :=
  { scale := newScale
    offsetX := pivot.1 - (toPage t pivot).1 * newScale
    offsetY := pivot.2 - (toPage t pivot).2 * newScale }

/-- An annotation record as consumed by the render path; only the fields
the geometry uses (`id`, `x`, `y`, `width`, `height`) are modelled, in
page-pixel coordinates. -/
structure Ann where
  id : ℕ
  x : ℚ
  y : ℚ
  width : ℚ
  height : ℚ
deriving DecidableEq

/-- A connection record: endpoint annotation ids and the line-type
classification used only for styling. -/
structure Conn where
  id : ℕ
  from_annotation_id : ℕ
  to_annotation_id : ℕ
  line_type : String
deriving DecidableEq

/-- A rendered connection overlay: the view-space line segment passed to
`new fabric.Line([fromX, fromY, toX, toY], ...)`. -/
structure Segment where
  x1 : ℚ
  y1 : ℚ
  x2 : ℚ
  y2 : ℚ
deriving DecidableEq

/-- One connection's contribution to the render
(`AnnotationPanel.jsx` 434-455): both endpoints are looked up by id
(`annotations.find(a => a.id === conn.from_annotation_id)`); when either
is missing the connection is skipped (`if (!fromAnn || !toAnn) return;`);
otherwise the line runs between the centers of the endpoints' view-space
boxes, e.g. `fromX = offsetX + (fromAnn.x + fromAnn.width / 2) * scale`. -/
def renderConnection (t : Transform) (anns : List Ann) (conn : Conn) : Option Segment :=
  match anns.find? (fun a => a.id == conn.from_annotation_id) with
  | none => none
  | some fromAnn =>
    match anns.find? (fun a => a.id == conn.to_annotation_id) with
    | none => none
    | some toAnn =>
      some { x1 := t.offsetX + (fromAnn.x + fromAnn.width / 2) * t.scale
             y1 := t.offsetY + (fromAnn.y + fromAnn.height / 2) * t.scale
             x2 := t.offsetX + (toAnn.x + toAnn.width / 2) * t.scale
             y2 := t.offsetY + (toAnn.y + toAnn.height / 2) * t.scale }

/-- The connection pass of the render effect: `connections.forEach`,
each connection contributing its segment or nothing. -/
def renderConnections (t : Transform) (anns : List Ann) (conns : List Conn) : List Segment :=
  conns.filterMap (renderConnection t anns)

/-- Outcome of an awaited network request: the server's response, or a
rejection with an error message. -/
inductive NetOutcome (α : Type) where
  | ok (response : α)
  | err (msg : String)
deriving DecidableEq

/-- The observable result of one Annotator handler run: the local list
afterwards, the `alert(...)` popups shown to the user, and the
`console.error` log entries. -/
structure HandlerRun (α : Type) where
  state : List α
  alerts : List String
  consoleErrors : List String
deriving DecidableEq

/-- `handleAnnotationCreate` (`Annotator.jsx` 104-119): awaits
`annotationsApi.create(...)`; only once it resolves is the server's
annotation appended to local state (`setAnnotations([...annotations,
newAnnotation])`); on rejection the handler logs
`console.error('Error creating annotation:', err)` and leaves the list
untouched — no `alert` is raised and nothing was added beforehand. -/
def handleAnnotationCreate (anns : List Ann) : NetOutcome Ann → HandlerRun Ann
  | .ok newAnn =>
      { state := anns ++ [newAnn], alerts := [], consoleErrors := [] }
  | .err msg =>
      { state := anns, alerts := [],
        consoleErrors := ["Error creating annotation: " ++ msg] }

/-- `handleAnnotationUpdate` (`Annotator.jsx` 121-129): awaits
`annotationsApi.update(...)`; on resolution replaces the matching entry
with the server's record (`annotations.map(a => a.id === annotationId ?
updated : a)`); on rejection logs to the console and leaves the list
untouched. -/
def handleAnnotationUpdate (anns : List Ann) (annId : ℕ) : NetOutcome Ann → HandlerRun Ann
  | .ok updated =>
      { state := anns.map fun a => if a.id = annId then updated else a
        alerts := [], consoleErrors := [] }
  | .err msg =>
      { state := anns, alerts := [],
        consoleErrors := ["Error updating annotation: " ++ msg] }

end Yolo

namespace Yolo

/-- Helper: the draw-gesture completion emits nothing when the converted
dimensions do not both exceed the threshold. -/
theorem handleMouseUp_eq_none (t : Transform) (r : ViewRect)
    (h : ¬ (10 < r.width / t.scale ∧ 10 < r.height / t.scale)) :
    handleMouseUp t r = none := by
  simp [handleMouseUp, h]

/-- Helper: the draw-gesture completion emits the converted box when both
converted dimensions exceed the threshold. -/
theorem handleMouseUp_eq_some (t : Transform) (r : ViewRect)
    (h : 10 < r.width / t.scale ∧ 10 < r.height / t.scale) :
    handleMouseUp t r = some ⟨(r.left - t.offsetX) / t.scale, (r.top - t.offsetY) / t.scale,
      r.width / t.scale, r.height / t.scale⟩ := by
  simp [handleMouseUp, h]

/-- Helper: a single zoom step keeps the scale inside `[0.1, 5]`. -/
theorem applyZoom_bounds (z : ℚ) (op : ZoomOp) (hl : 1 / 10 ≤ z) (hu : z ≤ 5) :
    1 / 10 ≤ applyZoom z op ∧ applyZoom z op ≤ 5 := by
  cases op with
  | wheel deltaYPos =>
    exact ⟨le_min (le_max_right _ _) (by norm_num), min_le_right _ _⟩
  | zoomIn =>
    exact ⟨le_min (by linarith) (by norm_num), min_le_right _ _⟩
  | zoomOut =>
    refine ⟨le_max_right _ _, max_le ?_ (by norm_num)⟩
    rw [div_le_iff₀ (by norm_num : (0 : ℚ) < 12 / 10)]
    linarith
  | reset =>
    exact ⟨by norm_num [applyZoom], by norm_num [applyZoom]⟩

/-- C1: the coordinate transforms are exact inverses.  For every
transform with positive scale, `toPage ∘ toView` is the identity on page
points and `toView ∘ toPage` is the identity on view points; the render
path places a box at `toView` of its page position and the draw-gesture
path recovers the page position by `toPage` of the drawn view position. -/
theorem transforms_are_inverses (t : Transform) (h : 0 < t.scale) :
    (∀ p : ℚ × ℚ, toPage t (toView t p) = p) ∧
    (∀ v : ℚ × ℚ, toView t (toPage t v) = v) ∧
    (∀ t' : Transform, ∀ r : ViewRect, ∀ b : PageBox,
      handleMouseUp t' r = some b → (b.x, b.y) = toPage t' (r.left, r.top)) := by
  have hs : t.scale ≠ 0 := ne_of_gt h
  refine ⟨fun p => ?_, fun v => ?_, fun t' r b hb => ?_⟩
  · obtain ⟨px, py⟩ := p
    simp only [toView, toPage, Prod.mk.injEq]
    constructor <;> field_simp
  · obtain ⟨vx, vy⟩ := v
    simp only [toView, toPage, Prod.mk.injEq]
    constructor <;> field_simp
  · simp only [handleMouseUp] at hb
    split at hb
    · simp only [Option.some.injEq] at hb
      subst hb
      rfl
    · exact absurd hb (by simp)

/-- Witness for C1 at scale 2, offset (5, 7), page point (3, 4), view
point (11, 15), and a concrete completed gesture. -/
theorem transforms_are_inverses_witness :
    (0 : ℚ) < (2 : ℚ) ∧
    toPage ⟨2, 5, 7⟩ (toView ⟨2, 5, 7⟩ ((3 : ℚ), (4 : ℚ))) = ((3 : ℚ), (4 : ℚ)) := by
  have h := transforms_are_inverses ⟨2, 5, 7⟩ (by norm_num)
  exact ⟨by norm_num, h.1 (3, 4)⟩

/-- C2 counterexample: for a 800×600 viewport and a 1600×1200 page image
the code's fit scale is `min(0.5, 0.5, 1) * 0.9 = 0.45`, not `0.375` as
the claim states. -/
theorem fit_scale_not_0375 : fitScale 800 600 1600 1200 ≠ 3 / 8 := by
  rw [fitScale]
  norm_num

/-- C2 amended: the fit scale is the viewport/image ratio capped at 1 and
scaled by the 0.9 safety margin (hence never exceeds 0.9, so never
upscales), the offsets place the image center at the viewport center,
and for a 800×600 viewport with a 1600×1200 image the fit scale is 0.45. -/
theorem fit_to_viewport_spec :
    fitScale 800 600 1600 1200 = 9 / 20 ∧
    (∀ cw ch iw ih : ℚ,
      fitScale cw ch iw ih ≤ 9 / 10 ∧
      fitLeft cw iw (fitScale cw ch iw ih) + iw * fitScale cw ch iw ih / 2 = cw / 2 ∧
      fitTop ch ih (fitScale cw ch iw ih) + ih * fitScale cw ch iw ih / 2 = ch / 2) := by
  constructor
  · rw [fitScale]; norm_num
  · intro cw ch iw ih
    refine ⟨?_, by rw [fitLeft]; ring, by rw [fitTop]; ring⟩
    have h1 : min (min (cw / iw) (ch / ih)) 1 ≤ 1 := min_le_right _ _
    calc fitScale cw ch iw ih = min (min (cw / iw) (ch / ih)) 1 * (9 / 10) := rfl
      _ ≤ 1 * (9 / 10) := by
          exact mul_le_mul_of_nonneg_right h1 (by norm_num)
      _ = 9 / 10 := one_mul _

/-- C3: a completed draw gesture whose page-space width or height is
below 10 page-pixels produces no annotation-create call. -/
theorem min_size_suppression (t : Transform) (r : ViewRect)
    (h : r.width / t.scale < 10 ∨ r.height / t.scale < 10) :
    handleMouseUp t r = none := by
  refine handleMouseUp_eq_none t r ?_
  rintro ⟨hw, hh⟩
  rcases h with h | h <;> linarith

/-- Witness for C3: at scale 1 a 5×20 view rectangle is discarded. -/
theorem min_size_suppression_witness :
    ((5 : ℚ) / 1 < 10 ∨ (20 : ℚ) / 1 < 10) ∧
      handleMouseUp ⟨1, 0, 0⟩ ⟨0, 0, 5, 20⟩ = none :=
  ⟨Or.inl (by norm_num),
    min_size_suppression ⟨1, 0, 0⟩ ⟨0, 0, 5, 20⟩ (Or.inl (by norm_num))⟩

/-- C10: the threshold comparison is strict, so a completed draw gesture
whose page-space width (or height) is exactly 10 is also discarded. -/
theorem threshold_is_strict (t : Transform) (r : ViewRect)
    (h : r.width / t.scale = 10 ∨ r.height / t.scale = 10) :
    handleMouseUp t r = none := by
  refine handleMouseUp_eq_none t r ?_
  rintro ⟨hw, hh⟩
  rcases h with h | h <;> linarith

/-- Witness for C10: at scale 1 a 10×50 view rectangle (page-space width
exactly 10) is discarded. -/
theorem threshold_is_strict_witness :
    ((10 : ℚ) / 1 = 10 ∨ (50 : ℚ) / 1 = 10) ∧
      handleMouseUp ⟨1, 0, 0⟩ ⟨0, 0, 10, 50⟩ = none :=
  ⟨Or.inl (by norm_num),
    threshold_is_strict ⟨1, 0, 0⟩ ⟨0, 0, 10, 50⟩ (Or.inl (by norm_num))⟩

/-- C7: the in-progress rectangle kept by the mouse-move handler never
has negative width or height, and a degenerate gesture (zero width or
zero height) results in no annotation-create call. -/
theorem malformed_gesture_is_noop (drawStart pointer : ℚ × ℚ) (t : Transform) :
    0 ≤ (handleMouseMove drawStart pointer).width ∧
    0 ≤ (handleMouseMove drawStart pointer).height ∧
    ((handleMouseMove drawStart pointer).width = 0 ∨
      (handleMouseMove drawStart pointer).height = 0 →
        handleMouseUp t (handleMouseMove drawStart pointer) = none) := by
  refine ⟨abs_nonneg _, abs_nonneg _, fun h => ?_⟩
  refine handleMouseUp_eq_none t _ ?_
  rintro ⟨hw, hh⟩
  rcases h with h | h
  · rw [h, zero_div] at hw; linarith
  · rw [h, zero_div] at hh; linarith

/-- Witness for C7: a click gesture (pointer never moved horizontally)
yields a zero-width rectangle and no created annotation. -/
theorem malformed_gesture_is_noop_witness :
    (handleMouseMove (0, 0) (0, 9)).width = 0 ∧
      handleMouseUp ⟨1, 0, 0⟩ (handleMouseMove (0, 0) (0, 9)) = none := by
  have h := malformed_gesture_is_noop (0, 0) (0, 9) ⟨1, 0, 0⟩
  have hw : (handleMouseMove ((0 : ℚ), (0 : ℚ)) (0, 9)).width = 0 := by
    simp [handleMouseMove]
  exact ⟨hw, h.2.2 (Or.inl hw)⟩

/-- C8 counterexample: a draw gesture wholly left/above the page image
produces (and does not discard) a bounding box with negative x and y:
at scale 1, offset (100, 100), a 20×20 view rectangle at the view origin
yields the created box (-100, -100, 20, 20). -/
theorem created_box_can_be_negative :
    handleMouseUp ⟨1, 100, 100⟩ ⟨0, 0, 20, 20⟩ =
      some ⟨-100, -100, 20, 20⟩ ∧ (-100 : ℚ) < 0 := by
  constructor
  · rw [handleMouseUp]
    norm_num
  · norm_num

/-- C8 amended: every bounding box produced by the draw gesture has
strictly positive width and height (indeed above the 10-pixel
threshold), but x and y are non-negative only when the drawn rectangle
does not extend left of / above the page image; gestures outside the
image produce boxes with negative coordinates, unclamped. -/
theorem created_box_invariant (t : Transform) (r : ViewRect) (b : PageBox)
    (hs : 0 < t.scale) (hb : handleMouseUp t r = some b) :
    0 < b.width ∧ 0 < b.height ∧
    (t.offsetX ≤ r.left → 0 ≤ b.x) ∧ (t.offsetY ≤ r.top → 0 ≤ b.y) := by
  rw [handleMouseUp] at hb
  by_cases hc : 10 < r.width / t.scale ∧ 10 < r.height / t.scale
  · rw [if_pos hc] at hb
    obtain ⟨rfl⟩ := Option.some.injEq _ _ ▸ hb
    refine ⟨by linarith [hc.1], by linarith [hc.2], fun hx => ?_, fun hy => ?_⟩
    · exact div_nonneg (by linarith) (le_of_lt hs)
    · exact div_nonneg (by linarith) (le_of_lt hs)
  · rw [if_neg hc] at hb
    exact absurd hb (by simp)

/-- C4: after any sequence of user zoom operations starting from a scale
in `[0.1, 5]` (the initial scale is 1), the scale stays in `[0.1, 5]`;
in particular it is strictly positive, so a zero or negative scale is
unreachable through the zoom entry points. -/
theorem zoom_scale_clamped (ops : List ZoomOp) (z0 : ℚ)
    (h0 : 1 / 10 ≤ z0 ∧ z0 ≤ 5) :
    1 / 10 ≤ ops.foldl applyZoom z0 ∧ ops.foldl applyZoom z0 ≤ 5 ∧
      0 < ops.foldl applyZoom z0 := by
  suffices h : 1 / 10 ≤ ops.foldl applyZoom z0 ∧ ops.foldl applyZoom z0 ≤ 5 by
    exact ⟨h.1, h.2, lt_of_lt_of_le (by norm_num) h.1⟩
  induction ops generalizing z0 with
  | nil => exact h0
  | cons op rest ih =>
    rw [List.foldl_cons]
    exact ih (applyZoom z0 op) (applyZoom_bounds z0 op h0.1 h0.2)

/-- Witness for C4: from the initial scale 1, repeated zoom-out, a wheel
step, zoom-in and reset keep the scale in range. -/
theorem zoom_scale_clamped_witness :
    ((1 : ℚ) / 10 ≤ 1 ∧ (1 : ℚ) ≤ 5) ∧
      1 / 10 ≤ [ZoomOp.zoomOut, .zoomOut, .wheel true, .zoomIn].foldl applyZoom 1 ∧
      [ZoomOp.zoomOut, .zoomOut, .wheel true, .zoomIn].foldl applyZoom 1 ≤ 5 ∧
      0 < [ZoomOp.zoomOut, .zoomOut, .wheel true, .zoomIn].foldl applyZoom 1 :=
  ⟨⟨by norm_num, by norm_num⟩,
    zoom_scale_clamped [ZoomOp.zoomOut, .zoomOut, .wheel true, .zoomIn] 1
      ⟨by norm_num, by norm_num⟩⟩

/-- C5: zooming about a pivot keeps the pivot fixed in view space: the
page point that was under the pivot before the zoom renders at the pivot
afterwards, and with the post-zoom transform
`toView (toPage pivot) = pivot`.  This covers the wheel handler (pivot =
pointer) and the zoom buttons (`setZoom`, pivot = canvas origin). -/
theorem zoom_pivot_invariance (t : Transform) (pivot : ℚ × ℚ) (newScale : ℚ)
    (hs : 0 < t.scale) (hns : 0 < newScale) :
    toView (zoomToPoint t pivot newScale) (toPage t pivot) = pivot ∧
    toView (zoomToPoint t pivot newScale)
      (toPage (zoomToPoint t pivot newScale) pivot) = pivot := by
  have hns' : newScale ≠ 0 := ne_of_gt hns
  have hs' : t.scale ≠ 0 := ne_of_gt hs
  obtain ⟨vx, vy⟩ := pivot
  constructor
  · simp only [toView, toPage, zoomToPoint, Prod.mk.injEq]
    constructor <;> ring
  · simp only [toView, toPage, zoomToPoint, Prod.mk.injEq]
    constructor <;> (field_simp; ring)

/-- Witness for C5: zooming from scale 1, offset (0,0) to scale 2 about
the pivot (10, 20) leaves (10, 20) fixed. -/
theorem zoom_pivot_invariance_witness :
    (0 : ℚ) < 1 ∧ (0 : ℚ) < 2 ∧
      toView (zoomToPoint ⟨1, 0, 0⟩ (10, 20) 2) (toPage ⟨1, 0, 0⟩ (10, 20)) =
        ((10 : ℚ), (20 : ℚ)) :=
  ⟨by norm_num, by norm_num,
    (zoom_pivot_invariance ⟨1, 0, 0⟩ (10, 20) 2 (by norm_num) (by norm_num)).1⟩

/-- Witness for C8 amended: at scale 1 and offset (0,0) a 20×30 view
rectangle at (5,6) produces the box (5, 6, 20, 30). -/
theorem created_box_invariant_witness :
    (0 : ℚ) < 1 ∧ handleMouseUp ⟨1, 0, 0⟩ ⟨5, 6, 20, 30⟩ = some ⟨5, 6, 20, 30⟩ ∧
      (0 : ℚ) < 20 ∧ (0 : ℚ) < 30 := by
  have hsome : handleMouseUp ⟨1, 0, 0⟩ ⟨5, 6, 20, 30⟩ = some ⟨5, 6, 20, 30⟩ := by
    rw [handleMouseUp]; norm_num
  have h := created_box_invariant ⟨1, 0, 0⟩ ⟨5, 6, 20, 30⟩ ⟨5, 6, 20, 30⟩
    (by norm_num) hsome
  exact ⟨by norm_num, hsome, h.1, h.2.1⟩

/-- C6: a connection whose from- or to-annotation id is absent from the
current annotation list contributes nothing to the render (and is
dropped from the rendered segment list), with no error; a connection
with both endpoints present renders as the segment between the centers
of the endpoints' view-space boxes. -/
theorem connection_skip_rule (t : Transform) (anns : List Ann) (conn : Conn) :
    ((∀ a ∈ anns, a.id ≠ conn.from_annotation_id) ∨
      (∀ a ∈ anns, a.id ≠ conn.to_annotation_id) →
        renderConnection t anns conn = none) ∧
    (∀ fromAnn toAnn : Ann,
      anns.find? (fun a => a.id == conn.from_annotation_id) = some fromAnn →
      anns.find? (fun a => a.id == conn.to_annotation_id) = some toAnn →
      renderConnection t anns conn =
        some ⟨t.offsetX + (fromAnn.x + fromAnn.width / 2) * t.scale,
              t.offsetY + (fromAnn.y + fromAnn.height / 2) * t.scale,
              t.offsetX + (toAnn.x + toAnn.width / 2) * t.scale,
              t.offsetY + (toAnn.y + toAnn.height / 2) * t.scale⟩) ∧
    (∀ rest : List Conn, renderConnection t anns conn = none →
      renderConnections t anns (conn :: rest) = renderConnections t anns rest) := by
  refine ⟨fun h => ?_, fun fromAnn toAnn hf ht => ?_, fun rest hnone => ?_⟩
  · rcases h with h | h
    · have hf : anns.find? (fun a => a.id == conn.from_annotation_id) = none := by
        rw [List.find?_eq_none]
        intro a ha
        simpa using h a ha
      simp only [renderConnection, hf]
    · have ht : anns.find? (fun a => a.id == conn.to_annotation_id) = none := by
        rw [List.find?_eq_none]
        intro a ha
        simpa using h a ha
      cases hf : anns.find? (fun a => a.id == conn.from_annotation_id) with
      | none => simp only [renderConnection, hf]
      | some fromAnn => simp only [renderConnection, hf, ht]
  · simp only [renderConnection, hf, ht]
  · simp [renderConnections, List.filterMap_cons, hnone]

/-- Witness for C6: with the single annotation id 1 on the page, a
connection from id 1 to the (deleted) id 2 renders to nothing. -/
theorem connection_skip_rule_witness :
    (∀ a ∈ ([⟨1, 0, 0, 10, 10⟩] : List Ann), a.id ≠ 2) ∧
      renderConnection ⟨1, 0, 0⟩ [⟨1, 0, 0, 10, 10⟩] ⟨7, 1, 2, "piping"⟩ = none := by
  have h := (connection_skip_rule ⟨1, 0, 0⟩ [⟨1, 0, 0, 10, 10⟩] ⟨7, 1, 2, "piping"⟩).1
  exact ⟨by decide, h (Or.inr (by decide))⟩

/-- C9 counterexample: on a failing create request the handler leaves
the annotation list exactly as it was — the new annotation was never
added optimistically — and shows no user-visible message (no alert),
contradicting both halves of the claim at this concrete input. -/
theorem optimistic_update_refuted :
    (handleAnnotationCreate [⟨1, 0, 0, 10, 10⟩] (.err "network down")).state
        = [⟨1, 0, 0, 10, 10⟩] ∧
      (handleAnnotationCreate [⟨1, 0, 0, 10, 10⟩] (.err "network down")).alerts = [] :=
  ⟨rfl, rfl⟩

/-- C9 amended: domain mutations await the request and apply the
server's response afterwards — the created annotation is in local state
exactly when the request succeeded; on failure the local state is left
unchanged and the error goes to the console log only, never to a
user-visible alert. -/
theorem mutations_resolve_then_apply (anns : List Ann) (newAnn : Ann)
    (annId : ℕ) (msg : String) (hnotin : newAnn ∉ anns) :
    newAnn ∈ (handleAnnotationCreate anns (.ok newAnn)).state ∧
    newAnn ∉ (handleAnnotationCreate anns (.err msg)).state ∧
    (handleAnnotationCreate anns (.err msg)).state = anns ∧
    (handleAnnotationCreate anns (.err msg)).alerts = [] ∧
    (handleAnnotationCreate anns (.err msg)).consoleErrors ≠ [] ∧
    (handleAnnotationUpdate anns annId (.err msg)).state = anns ∧
    (handleAnnotationUpdate anns annId (.err msg)).alerts = [] ∧
    (handleAnnotationUpdate anns annId (.err msg)).consoleErrors ≠ [] := by
  refine ⟨?_, hnotin, rfl, rfl, ?_, rfl, rfl, ?_⟩
  · simp [handleAnnotationCreate]
  · simp [handleAnnotationCreate]
  · simp [handleAnnotationUpdate]

/-- Witness for C9 amended: concretely, annotation id 2 is present after
a successful create but absent after a failed one. -/
theorem mutations_resolve_then_apply_witness :
    ((⟨2, 0, 0, 20, 20⟩ : Ann) ∉ ([⟨1, 0, 0, 10, 10⟩] : List Ann)) ∧
      (⟨2, 0, 0, 20, 20⟩ : Ann) ∈
        (handleAnnotationCreate [⟨1, 0, 0, 10, 10⟩] (.ok ⟨2, 0, 0, 20, 20⟩)).state ∧
      (⟨2, 0, 0, 20, 20⟩ : Ann) ∉
        (handleAnnotationCreate [⟨1, 0, 0, 10, 10⟩] (.err "boom")).state := by
  have h := mutations_resolve_then_apply [⟨1, 0, 0, 10, 10⟩] ⟨2, 0, 0, 20, 20⟩
    1 "boom" (by decide)
  exact ⟨by decide, h.1, h.2.1⟩

end Yolo
